import Mathlib

/-!
# Verification of the Lumilove_RAG retrieval-augmented memory pipeline

Shallow embedding of the core pipeline of the `Lumilove_RAG` repository
(`services/vector_store.py`, `services/rag_service.py`, `services/chat_service.py`,
`config.py`) together with proofs about the claims on its behavior.

Conventions of the embedding:
* Python strings are Lean `String`; the Python string operations used by the code
  (`split`, `strip`, `int(...)`, `str(...)`, `"sep".join(...)`) are re-implemented
  structurally below so that they evaluate inside the kernel.
* External collaborators (the Chroma similarity search, the SQL store, the OpenRouter
  backend, the uuid generator) are passed in as explicit parameters: the embedded
  functions contain exactly the control flow of the Python source around those calls.
* Python exceptions are `Except`; a Python `try/except` block that swallows the
  exception becomes a total function.
* Database timestamps are modelled as `Nat` (only their ordering is used).
-/

namespace Lumilove

/-! ## Python string primitives -/

/-- Kernel-computable core of Python `s.split(sep)` for a one-character separator:
split at every occurrence, never merging adjacent separators; the empty string
splits to `[""]`, matching CPython. -/
def splitOnCharAux (sep : Char) : List Char → List (List Char)
  | [] => [[]]
  | c :: cs =>
    let r := splitOnCharAux sep cs
    if c = sep then [] :: r
    else
      match r with
      | [] => [[c]]
      | g :: gs => (c :: g) :: gs

/-- Python `s.split(sep)` for a one-character separator (`session_id.split('_')`). -/
def pySplit (sep : Char) (s : String) : List String :=
  (splitOnCharAux sep s.data).map String.mk

/-- Python `s.strip()`: remove leading and trailing whitespace. -/
def pyStrip (s : String) : String :=
  String.mk (((s.data.dropWhile Char.isWhitespace).reverse.dropWhile Char.isWhitespace).reverse)

/-- Python `str(x)` applied to an `Optional[str]`: `str(None)` is the literal
string `"None"`; on a present string it is the identity. This is exactly what
`vector_store.py` line 124 computes when the `session_id` parameter is `None`. -/
def pyStrOpt : Option String → String
  | none => "None"
  | some s => s

/-- Value of a decimal digit character, `none` on a non-digit. -/
def digitVal? (c : Char) : Option Nat :=
  if '0' ≤ c ∧ c ≤ '9' then some (c.toNat - '0'.toNat) else none

/-- Accumulating decimal parser over a digit list; fails on any non-digit. -/
def digitsAux : List Char → Nat → Option Nat
  | [], acc => some acc
  | c :: cs, acc =>
    match digitVal? c with
    | none => none
    | some d => digitsAux cs (acc * 10 + d)

/-- Python `int(s)` restricted to what the repository feeds it: optional
surrounding whitespace, an optional sign, then decimal digits; `none` models the
`ValueError` that `int(...)` raises on anything else. -/
def pyInt? (s : String) : Option Int :=
  match (pyStrip s).data with
  | [] => none
  | '+' :: rest =>
    match rest with
    | [] => none
    | _ => (digitsAux rest 0).map Int.ofNat
  | '-' :: rest =>
    match rest with
    | [] => none
    | _ => (digitsAux rest 0).map (fun n => -(n : Int))
  | cs => (digitsAux cs 0).map Int.ofNat

/-- Python `sep.join(xs)`. -/
def pyJoin (sep : String) : List String → String
  | [] => ""
  | [x] => x
  | x :: y :: ys => x ++ sep ++ pyJoin sep (y :: ys)

/-! ## Configuration (`config.py` defaults) -/

/-- `settings.top_k_results` (config.py line 33, default). -/
def top_k_results : Nat := 5

/-- `settings.max_context_length` (config.py line 32, default). -/
def max_context_length : Nat := 4000

/-! ## Data model -/

/-- Metadata attached to every chunk written by
`VectorStoreService.add_chat_to_vector_store` (vector_store.py lines 65-71).
All values the repository stores in these fields are strings: `user_id` arrives
as `str` from the API layer and `session_id` is the formatted session key. -/
structure ChunkMetadata where
  user_id : String
  session_id : String
  message_index : Nat
  type : String
  chunk_id : String
deriving DecidableEq

/-- One `(Document, score)` candidate returned by the underlying Chroma
`similarity_search_with_score` call. The numeric (floating point) similarity
score never influences control flow in the embedded code, so it is carried as
its rendered text. -/
structure ScoredDoc where
  page_content : String
  metadata : ChunkMetadata
  score : String
deriving DecidableEq

/-- One formatted retrieval result of `search_relevant_context`
(vector_store.py lines 125-129). -/
structure ContextItem where
  content : String
  metadata : ChunkMetadata
  similarity_score : String
deriving DecidableEq

/-! ## `VectorStoreService.search_relevant_context` (vector_store.py lines 88-140) -/

/-- The metadata filter handed to the Chroma similarity search. -/
inductive ChromaFilter where
  | userOnly (user_id : String)
  | userAndSession (user_id : String) (session_id : String)
deriving DecidableEq

/-- Filter construction of vector_store.py lines 97-105: Python `if session_id:`
is truthiness, so both `None` and the empty string select the user-only filter. -/
def buildSearchFilter (user_id : String) (session_id : Option String) : ChromaFilter :=
  match session_id with
  | some sid => if sid = "" then ChromaFilter.userOnly user_id
                else ChromaFilter.userAndSession user_id sid
  | none => ChromaFilter.userOnly user_id

/-- Formatting of one accepted candidate (vector_store.py lines 125-129). -/
def formatResult (d : ScoredDoc) : ContextItem :=
  { content := d.page_content, metadata := d.metadata, similarity_score := d.score }

/-- `VectorStoreService.search_relevant_context`. The Chroma backend is the
parameter `backend` (query text, `k`, filter); a backend exception makes the
whole search return `[]` (lines 138-140). Each candidate is re-verified against
the requested identifiers via Python `str(...)` equality (line 124) and dropped
on mismatch (lines 130-133). -/
def search_relevant_context
    (backend : String → Nat → ChromaFilter → Except String (List ScoredDoc))
    (query : String) (user_id : String) (session_id : Option String)
    (k : Option Nat) : List ContextItem :=
  let kv := k.getD top_k_results
  let fl := buildSearchFilter user_id session_id
  match backend query kv fl with
  | Except.error _ => []
  | Except.ok results =>
    (results.filter (fun d =>
      d.metadata.user_id == user_id && d.metadata.session_id == pyStrOpt session_id)).map
      formatResult

/-! ## Claims C1 and C10 -/

/-- **C1.** For every query with a given `userId` and `sessionKey`, every retrieved
context item in the returned list has metadata whose `user_id` equals the requested
`userId` and whose `session_id` equals the requested `sessionKey`; every returned
item stems from a backend candidate with that same matching metadata, so any
candidate whose metadata does not match is discarded rather than returned. -/
theorem c1_filter_correctness
    (results : List ScoredDoc) (query user_id sid : String) (k : Option Nat)
    (it : ContextItem)
    (hit : it ∈ search_relevant_context (fun _ _ _ => Except.ok results)
      query user_id (some sid) k) :
    it.metadata.user_id = user_id ∧ it.metadata.session_id = sid ∧
      ∃ d ∈ results, it = formatResult d ∧
        d.metadata.user_id = user_id ∧ d.metadata.session_id = sid := by
  simp only [search_relevant_context, List.mem_map, List.mem_filter,
    Bool.and_eq_true, beq_iff_eq, pyStrOpt] at hit
  obtain ⟨d, ⟨hd, hu, hs⟩, hfmt⟩ := hit
  subst hfmt
  exact ⟨hu, hs, d, hd, rfl, hu, hs⟩

/-- Witness for C1 at a concrete input: one matching and one mismatching
candidate; the matching one is returned and satisfies the invariant. -/
theorem c1_filter_correctness_witness :
    (formatResult ⟨"hello", ⟨"7", "user_7_character_42", 0, "conversation", "c1"⟩, "0.1"⟩).metadata.user_id
        = "7" ∧
    (formatResult ⟨"hello", ⟨"7", "user_7_character_42", 0, "conversation", "c1"⟩, "0.1"⟩).metadata.session_id
        = "user_7_character_42" ∧
    ∃ d ∈ [(⟨"hello", ⟨"7", "user_7_character_42", 0, "conversation", "c1"⟩, "0.1"⟩ : ScoredDoc),
           ⟨"leak", ⟨"8", "user_8_character_1", 0, "conversation", "c2"⟩, "0.2"⟩],
      (formatResult ⟨"hello", ⟨"7", "user_7_character_42", 0, "conversation", "c1"⟩, "0.1"⟩)
          = formatResult d ∧
        d.metadata.user_id = "7" ∧ d.metadata.session_id = "user_7_character_42" :=
  c1_filter_correctness
    [⟨"hello", ⟨"7", "user_7_character_42", 0, "conversation", "c1"⟩, "0.1"⟩,
     ⟨"leak", ⟨"8", "user_8_character_1", 0, "conversation", "c2"⟩, "0.2"⟩]
    "hi" "7" "user_7_character_42" (some 5)
    (formatResult ⟨"hello", ⟨"7", "user_7_character_42", 0, "conversation", "c1"⟩, "0.1"⟩)
    (by decide)

/-- **C10.** When the `sessionKey` argument is absent (`None`), the filter sent to
the index restricts only on the user id, but the post-search defensive check
compares each candidate's `session_id` metadata against `str(None) = "None"`: every
returned item has stored `session_id` equal to the literal string `"None"`, and if
every candidate carries an ordinary session key (≠ `"None"`) the result is empty. -/
theorem c10_none_session_compares_str_none
    (results : List ScoredDoc) (query user_id : String) (k : Option Nat) :
    buildSearchFilter user_id none = ChromaFilter.userOnly user_id ∧
    (∀ it ∈ search_relevant_context (fun _ _ _ => Except.ok results)
        query user_id none k, it.metadata.session_id = "None") ∧
    ((∀ d ∈ results, d.metadata.session_id ≠ "None") →
      search_relevant_context (fun _ _ _ => Except.ok results) query user_id none k
        = []) := by
  refine ⟨rfl, ?_, ?_⟩
  · intro it hit
    simp only [search_relevant_context, List.mem_map, List.mem_filter,
      Bool.and_eq_true, beq_iff_eq, pyStrOpt] at hit
    obtain ⟨d, ⟨_, _, hs⟩, hfmt⟩ := hit
    subst hfmt
    exact hs
  · intro hall
    simp only [search_relevant_context, List.map_eq_nil_iff, List.filter_eq_nil_iff,
      Bool.and_eq_true, beq_iff_eq, pyStrOpt, not_and]
    intro d hd hu
    exact hall d hd

/-- Witness for C10 at a concrete input: a stored chunk with the ordinary session
key `"user_7_character_42"` is never returned by a `None`-session query. -/
theorem c10_none_session_compares_str_none_witness :
    buildSearchFilter "7" none = ChromaFilter.userOnly "7" ∧
    search_relevant_context
      (fun _ _ _ => Except.ok
        [(⟨"hello", ⟨"7", "user_7_character_42", 0, "conversation", "c1"⟩, "0.1"⟩ : ScoredDoc)])
      "hi" "7" none (some 5) = [] :=
  ⟨(c10_none_session_compares_str_none
      [⟨"hello", ⟨"7", "user_7_character_42", 0, "conversation", "c1"⟩, "0.1"⟩]
      "hi" "7" (some 5)).1,
   (c10_none_session_compares_str_none
      [⟨"hello", ⟨"7", "user_7_character_42", 0, "conversation", "c1"⟩, "0.1"⟩]
      "hi" "7" (some 5)).2.2 (by decide)⟩

/-! ## Session keys (`chat_service.py`, `rag_service.py`) -/

/-- Session key construction `f"user_{user_id}_character_{character_id}"`
(chat_service.py line 17, also api/chat.py line 193). -/
def resolveSessionKey (user_id character_id : String) : String :=
  "user_" ++ user_id ++ "_character_" ++ character_id

/-- `RAGService._extract_character_id_from_session` (rag_service.py lines 71-80):
split on `'_'`; when there are at least 4 parts and the third is `"character"`,
return the fourth, else the default character id `"1"`. The function is total:
no input makes it raise. -/
def extract_character_id_from_session (session_id : String) : String :=
  let parts := pySplit '_' session_id
  if 4 ≤ parts.length ∧ parts[2]! = "character" then parts[3]! else "1"

/-- User-identifier half of the inverse extraction: the second `'_'`-separated
token of the key, as parsed by `chat_service.py` lines 128-131 and 164-167. -/
def extractUserIdFromSession (session_id : String) : String :=
  (pySplit '_' session_id)[1]!

/-- The spec's expected session-key token structure `user_<U>_character_<C>`:
exactly four `'_'`-separated parts, the first `"user"`, the third `"character"`. -/
def matchesSessionKeyStructure (s : String) : Bool :=
  let parts := pySplit '_' s
  parts.length == 4 && parts[0]! == "user" && parts[2]! == "character"

/-- A `'_'`-split key carries a character segment: some part equals `"character"`
in the position the format assigns it (third token). -/
def hasCharacterSegment (s : String) : Bool :=
  let parts := pySplit '_' s
  3 ≤ parts.length && parts[2]! == "character"

/-! ## Claims C6 and C7 -/

/-- **C6 counterexample.** The key `"pwned_666_character_evil"` does not match the
expected `user_<U>_character_<C>` token structure (its first token is not `"user"`)
and its character segment is present (so the default-tolerance exception of the
claim does not apply), yet the extraction does not fail with `MalformedSessionKey`:
it is a total function and returns `"evil"`. -/
theorem c6_counterexample :
    matchesSessionKeyStructure "pwned_666_character_evil" = false ∧
    hasCharacterSegment "pwned_666_character_evil" = true ∧
    extract_character_id_from_session "pwned_666_character_evil" = "evil" := by
  decide

/-- **C6 (amended).** The inverse extraction is total and never signals an error:
any key whose `'_'`-split has at least 4 parts with the third equal to
`"character"` yields the fourth part (whatever the rest of the key looks like),
and every other input — including keys whose character segment is absent — yields
the default character identifier `"1"`. -/
theorem c6_extract_total_with_default (s : String) :
    (¬ (4 ≤ (pySplit '_' s).length ∧ (pySplit '_' s)[2]! = "character") →
      extract_character_id_from_session s = "1") ∧
    ((4 ≤ (pySplit '_' s).length ∧ (pySplit '_' s)[2]! = "character") →
      extract_character_id_from_session s = (pySplit '_' s)[3]!) := by
  constructor
  · intro h
    simp only [extract_character_id_from_session, if_neg h]
  · intro h
    simp only [extract_character_id_from_session, if_pos h]

/-- Witness for the amended C6: the structureless key `"x"` falls back to the
default `"1"`; a well-formed key yields its character token. -/
theorem c6_extract_total_with_default_witness :
    extract_character_id_from_session "x" = "1" ∧
    extract_character_id_from_session "user_7_character_42" = "42" :=
  ⟨(c6_extract_total_with_default "x").1 (by decide),
   ((c6_extract_total_with_default "user_7_character_42").2 (by decide)).trans (by decide)⟩

/-- **C7.** Resolving the session key for `u = "7"`, `c = "42"` yields exactly
`"user_7_character_42"`, and the inverse extraction on that string recovers the
pair: the user token is `"7"` and the character token is `"42"`. -/
theorem c7_session_key_roundtrip :
    resolveSessionKey "7" "42" = "user_7_character_42" ∧
    extractUserIdFromSession "user_7_character_42" = "7" ∧
    extract_character_id_from_session "user_7_character_42" = "42" := by
  decide

/-! ## `ChatService.get_recent_messages` (chat_service.py lines 66-214) -/

/-- One row of the `chat_history` table (models/database.py lines 13-29);
`created_at` is modelled by a `Nat` since only its ordering is used. -/
structure ChatRow where
  id : Nat
  user_id : Int
  character_id : Int
  message : String
  response : String
  session_id : String
  created_at : Nat
  is_deleted : Bool
deriving DecidableEq

/-- Insert one row into a list sorted by `created_at` descending. -/
def insertByCreatedDesc (r : ChatRow) : List ChatRow → List ChatRow
  | [] => [r]
  | x :: xs =>
    if x.created_at ≤ r.created_at then r :: x :: xs else x :: insertByCreatedDesc r xs

/-- SQL `ORDER BY created_at DESC` (tie order among equal timestamps is
unspecified by SQL; any descending sort is a faithful model). -/
def sortByCreatedDesc : List ChatRow → List ChatRow
  | [] => []
  | x :: xs => insertByCreatedDesc x (sortByCreatedDesc xs)

theorem mem_insertByCreatedDesc {a r : ChatRow} {l : List ChatRow} :
    a ∈ insertByCreatedDesc r l ↔ a = r ∨ a ∈ l := by
  induction l with
  | nil => simp [insertByCreatedDesc]
  | cons x xs ih =>
    simp only [insertByCreatedDesc]
    split
    · simp
    · simp only [List.mem_cons, ih]
      tauto

theorem mem_sortByCreatedDesc {a : ChatRow} {l : List ChatRow} :
    a ∈ sortByCreatedDesc l ↔ a ∈ l := by
  induction l with
  | nil => simp [sortByCreatedDesc]
  | cons x xs ih =>
    simp only [sortByCreatedDesc, mem_insertByCreatedDesc, ih, List.mem_cons]

/-- The primary ORM query (chat_service.py lines 145-150): rows of the session
that are not soft-deleted, newest first, at most `limit` rows. -/
def ormSessionQuery (rows : List ChatRow) (session_id : String) (limit : Nat) :
    List ChatRow :=
  (sortByCreatedDesc (rows.filter
    (fun r => r.session_id == session_id && !r.is_deleted))).take limit

/-- First fallback query (chat_service.py lines 157-159): same session, but
WITHOUT the soft-delete filter. -/
def allSessionQuery (rows : List ChatRow) (session_id : String) (limit : Nat) :
    List ChatRow :=
  (sortByCreatedDesc (rows.filter (fun r => r.session_id == session_id))).take limit

/-- Second fallback query (chat_service.py lines 169-175): by parsed user and
character id, excluding soft-deleted rows. -/
def userCharQuery (rows : List ChatRow) (uid cid : Int) (limit : Nat) :
    List ChatRow :=
  (sortByCreatedDesc (rows.filter
    (fun r => r.user_id == uid && r.character_id == cid && !r.is_deleted))).take limit

/-- Query-selection logic of chat_service.py lines 144-184: primary query, then
the fallback without the soft-delete filter, then the user/character fallback
(whose `int(...)` parses may raise, caught by the enclosing `except` → `none`). -/
def selectConversations (rows : List ChatRow) (session_id : String) (limit : Nat) :
    Option (List ChatRow) :=
  let conversations := ormSessionQuery rows session_id limit
  if conversations.isEmpty then
    let allConversations := allSessionQuery rows session_id limit
    if allConversations.isEmpty then
      let parts := pySplit '_' session_id
      if 4 ≤ parts.length then
        match pyInt? parts[1]!, pyInt? parts[3]! with
        | some uid, some cid => some (userCharQuery rows uid cid limit)
        | _, _ => none
      else some conversations
    else some allConversations
  else some conversations

/-- One role-tagged entry of the recency window (chat_service.py lines 192-204). -/
structure RecentMsg where
  message_type : String
  content : String
  timestamp : Nat
deriving DecidableEq

/-- The sentinel the repository stores as the assistant text of an in-flight
streaming exchange, filtered out at chat_service.py line 199. -/
def streamingSentinel : String := "[流式响应]"

/-- Formatting step of chat_service.py lines 186-206: reverse into chronological
order; per exchange emit the user entry when the message is truthy and non-blank,
then the assistant entry when the response is truthy, non-blank and not the
streaming sentinel. -/
def formatConversations (convs : List ChatRow) : List RecentMsg :=
  convs.reverse.flatMap (fun conv =>
    (if conv.message != "" && pyStrip conv.message != ""
      then [{ message_type := "user", content := conv.message,
              timestamp := conv.created_at }]
      else []) ++
    (if conv.response != "" && pyStrip conv.response != ""
        && conv.response != streamingSentinel
      then [{ message_type := "assistant", content := conv.response,
              timestamp := conv.created_at }]
      else []))

/-- Outcome of the staged database access of `get_recent_messages`: the
connection test (lines 74-79), the table check (lines 82-87) and the ORM query
(lines 182-184) each return `[]` on failure; otherwise the table rows are read. -/
inductive DbFetch where
  | connFail (e : String)
  | tableMissing (e : String)
  | queryFail (e : String)
  | ok (rows : List ChatRow)

/-- `ChatService.get_recent_messages`. -/
def get_recent_messages (db : DbFetch) (session_id : String) (limit : Nat) :
    List RecentMsg :=
  match db with
  | DbFetch.connFail _ => []
  | DbFetch.tableMissing _ => []
  | DbFetch.queryFail _ => []
  | DbFetch.ok rows =>
    match selectConversations rows session_id limit with
    | none => []
    | some convs => formatConversations convs

/-! ## Claims C3 and C9 -/

/-- **C3 counterexample.** A session whose only exchange is soft-deleted: the
primary (soft-delete-filtered) query is empty, so the code falls back to the
query WITHOUT the soft-delete filter (chat_service.py lines 155-160, 179-180)
and `recent(sessionKey, 10)` returns entries derived from the soft-deleted
exchange, contradicting the claim that it never does. -/
theorem c3_counterexample :
    (⟨1, 1, 1, "hello", "world", "user_1_character_1", 5, true⟩ : ChatRow).is_deleted
        = true ∧
    get_recent_messages
        (DbFetch.ok [⟨1, 1, 1, "hello", "world", "user_1_character_1", 5, true⟩])
        "user_1_character_1" 10
      = [⟨"user", "hello", 5⟩, ⟨"assistant", "world", 5⟩] := by
  decide

/-- **C3 (amended).** (1) Whenever the primary session-scoped, soft-delete-filtered
query returns at least one row, every entry of `recent(sessionKey, limit)` derives
from a non-soft-deleted exchange of that session; the soft-delete filter can be
bypassed only through the fallback taken when that primary query is empty.
(2) Unconditionally, no returned assistant entry has empty or blank text or the
in-flight streaming sentinel as its text. -/
theorem c3_recent_filters_deleted_and_sentinel :
    (∀ rows session_id limit,
      ormSessionQuery rows session_id limit ≠ [] →
      ∀ m ∈ get_recent_messages (DbFetch.ok rows) session_id limit,
        ∃ r ∈ rows, r.is_deleted = false ∧ r.session_id = session_id ∧
          (m.content = r.message ∨ m.content = r.response)) ∧
    (∀ db session_id limit, ∀ m ∈ get_recent_messages db session_id limit,
      m.message_type = "assistant" →
        m.content ≠ "" ∧ pyStrip m.content ≠ "" ∧ m.content ≠ streamingSentinel) := by
  constructor
  · intro rows session_id limit h m hm
    have hne : (ormSessionQuery rows session_id limit).isEmpty = false := by
      cases hq : ormSessionQuery rows session_id limit with
      | nil => exact absurd hq h
      | cons a l => rfl
    simp only [get_recent_messages, selectConversations, hne, Bool.false_eq_true,
      if_false] at hm
    simp only [formatConversations, List.mem_flatMap, List.mem_reverse] at hm
    obtain ⟨conv, hconv, hmem⟩ := hm
    have hfil : conv ∈ rows.filter
        (fun r => r.session_id == session_id && !r.is_deleted) := by
      have h1 := List.take_subset _ _ hconv
      exact mem_sortByCreatedDesc.mp h1
    rw [List.mem_filter] at hfil
    obtain ⟨hrows, hcond⟩ := hfil
    rw [Bool.and_eq_true, beq_iff_eq, Bool.not_eq_true'] at hcond
    rcases List.mem_append.mp hmem with hA | hB
    · split at hA
      · rw [List.mem_singleton] at hA
        subst hA
        exact ⟨conv, hrows, hcond.2, hcond.1, Or.inl rfl⟩
      · simp at hA
    · split at hB
      · rw [List.mem_singleton] at hB
        subst hB
        exact ⟨conv, hrows, hcond.2, hcond.1, Or.inr rfl⟩
      · simp at hB
  · intro db session_id limit m hm hass
    cases db with
    | connFail e => simp [get_recent_messages] at hm
    | tableMissing e => simp [get_recent_messages] at hm
    | queryFail e => simp [get_recent_messages] at hm
    | ok rows =>
      simp only [get_recent_messages] at hm
      cases hsel : selectConversations rows session_id limit with
      | none => rw [hsel] at hm; simp at hm
      | some convs =>
        rw [hsel] at hm
        simp only [formatConversations, List.mem_flatMap, List.mem_reverse] at hm
        obtain ⟨conv, _, hmem⟩ := hm
        rcases List.mem_append.mp hmem with hA | hB
        · split at hA
          · rw [List.mem_singleton] at hA
            subst hA
            simp at hass
          · simp at hA
        · split at hB
          case isTrue hcondB =>
            rw [List.mem_singleton] at hB
            subst hB
            simp only [Bool.and_eq_true, bne_iff_ne, ne_eq] at hcondB
            exact ⟨hcondB.1.1, hcondB.1.2, hcondB.2⟩
          case isFalse _ => simp at hB

/-- Witness for the amended C3: both parts applied at a concrete store. -/
theorem c3_recent_filters_deleted_and_sentinel_witness :
    (∃ r ∈ [(⟨1, 1, 1, "hi", "yo", "s", 5, false⟩ : ChatRow)],
      r.is_deleted = false ∧ r.session_id = "s" ∧
        ("hi" = r.message ∨ "hi" = r.response)) ∧
    ("yo" ≠ "" ∧ pyStrip "yo" ≠ "" ∧ "yo" ≠ streamingSentinel) :=
  ⟨c3_recent_filters_deleted_and_sentinel.1 [⟨1, 1, 1, "hi", "yo", "s", 5, false⟩]
      "s" 10 (by decide) ⟨"user", "hi", 5⟩ (by decide),
   c3_recent_filters_deleted_and_sentinel.2
      (DbFetch.ok [⟨1, 1, 1, "hi", "yo", "s", 5, false⟩]) "s" 10
      ⟨"assistant", "yo", 5⟩ (by decide) rfl⟩

/-- **C9.** If the authoritative store fails during the recency fetch — connection
failure, missing table, or query error — `get_recent_messages` returns the empty
sequence rather than propagating the exception (chat_service.py lines 77-79,
85-87, 182-184, 210-214). -/
theorem c9_storage_failure_returns_empty (e : String) (session_id : String)
    (limit : Nat) :
    get_recent_messages (DbFetch.connFail e) session_id limit = [] ∧
    get_recent_messages (DbFetch.tableMissing e) session_id limit = [] ∧
    get_recent_messages (DbFetch.queryFail e) session_id limit = [] :=
  ⟨rfl, rfl, rfl⟩

/-! ## Prompt assembly (`rag_service.py`) -/

/-- Modelled from the spec: the fixed tokenizer (`tiktoken` encoding
`cl100k_base`, rag_service.py lines 7, 15, 244-246) is third-party code whose
token table is not in `src/`; it is modelled at character granularity, one token
per character. Every statement below involving `countTokens` depends only on the
count being additive over concatenation and growing with the text — the code path
under claim C2 performs no truncation at all — not on exact token boundaries. -/
def countTokens (s : String) : Nat := s.length

/-- Header prepended to one retrieved item by
`RAGService._build_context_from_retrieval` (rag_service.py line 113); the
similarity score appears in its `:.3f` rendering. -/
def contextLabel (i : Nat) (score : String) : String :=
  s!"Relevant conversation {i} (similarity: {score}):\n"

/-- `RAGService._build_context_from_retrieval` (rag_service.py lines 102-117):
on an empty retrieval the fixed placeholder; otherwise every item rendered with
its 1-based rank and score, joined by blank lines. No item is ever dropped. -/
def build_context_from_retrieval (relevant_context : List ContextItem) : String :=
  match relevant_context with
  | [] => "No relevant historical conversation records found."
  | _ =>
    pyJoin "\n\n" (relevant_context.enum.map
      (fun p => contextLabel (p.1 + 1) p.2.similarity_score ++ p.2.content))

/-- Header of one item kept by `RAGService._optimize_context_for_tokens`
(rag_service.py line 409); the score appears in its `:.2f` rendering. -/
def optimizeLabel (i : Nat) (score : String) : String :=
  s!"对话{i}(相似度{score}): "

/-- The truncation loop of `RAGService._optimize_context_for_tokens`
(rag_service.py lines 394-410): walk the ranked items accumulating content token
counts and stop (`break`) at the first item that would push the running total
over the ceiling. -/
def optimizeKept (max_context_tokens : Nat) : Nat → List ContextItem → List ContextItem
  | _, [] => []
  | current_tokens, ctx :: rest =>
    if max_context_tokens < current_tokens + countTokens ctx.content then []
    else ctx :: optimizeKept max_context_tokens
      (current_tokens + countTokens ctx.content) rest

/-- `RAGService._optimize_context_for_tokens` (rag_service.py lines 387-414);
the Python default for `max_context_tokens` is 1000. This helper is defined by
the repository but never invoked by any pipeline. -/
def optimize_context_for_tokens (relevant_context : List ContextItem)
    (max_context_tokens : Nat) : String :=
  match relevant_context with
  | [] => "暂无相关历史对话记录。"
  | _ =>
    pyJoin "\n" ((optimizeKept max_context_tokens 0 relevant_context).enum.map
      (fun p => optimizeLabel (p.1 + 1) p.2.similarity_score ++ p.2.content))

/-- Total content token count of a list of retrieved items. -/
def sumContentTokens (ctx : List ContextItem) : Nat :=
  (ctx.map (fun c => countTokens c.content)).sum

/-! ## Claims C2 and C8 -/

/-- The length of a Python join is at least the total length of the joined parts. -/
theorem length_pyJoin_ge (sep : String) : ∀ xs : List String,
    (xs.map String.length).sum ≤ (pyJoin sep xs).length
  | [] => by simp [pyJoin]
  | [x] => by simp [pyJoin]
  | x :: y :: ys => by
    have ih := length_pyJoin_ge sep (y :: ys)
    simp only [pyJoin, List.map_cons, List.sum_cons, String.length_append] at ih ⊢
    omega

/-- The retrieved-context block actually placed into the system prompt contains
every retrieved item: its token count is at least the total content token count,
for any number of items. -/
theorem sumContentTokens_le_build (ctx : List ContextItem) :
    sumContentTokens ctx ≤ countTokens (build_context_from_retrieval ctx) := by
  cases ctx with
  | nil => exact Nat.zero_le _
  | cons a l =>
    have base : sumContentTokens (a :: l)
        = ((a :: l).enum.map (fun p => countTokens p.2.content)).sum := by
      unfold sumContentTokens
      conv_lhs => rw [← List.enum_map_snd (a :: l)]
      rw [List.map_map]
      rfl
    have key : ((a :: l).enum.map (fun p => countTokens p.2.content)).sum
        ≤ (((a :: l).enum.map
            (fun p => contextLabel (p.1 + 1) p.2.similarity_score ++ p.2.content)).map
              String.length).sum := by
      rw [List.map_map]
      refine List.sum_le_sum ?_
      intro p _
      simp only [Function.comp_apply, String.length_append, countTokens]
      omega
    calc sumContentTokens (a :: l)
        = ((a :: l).enum.map (fun p => countTokens p.2.content)).sum := base
      _ ≤ (((a :: l).enum.map
            (fun p => contextLabel (p.1 + 1) p.2.similarity_score ++ p.2.content)).map
              String.length).sum := key
      _ ≤ countTokens (build_context_from_retrieval (a :: l)) :=
            length_pyJoin_ge "\n\n" _

/-- The items kept by the truncation loop form a prefix of the ranked list. -/
theorem optimizeKept_take (maxTok : Nat) : ∀ (cur : Nat) (ctx : List ContextItem),
    ∃ n, optimizeKept maxTok cur ctx = ctx.take n
  | _, [] => ⟨0, rfl⟩
  | cur, a :: l => by
    simp only [optimizeKept]
    split
    · exact ⟨0, rfl⟩
    · obtain ⟨n, hn⟩ := optimizeKept_take maxTok (cur + countTokens a.content) l
      exact ⟨n + 1, by rw [hn]; rfl⟩

/-- Running-total invariant of the truncation loop. -/
theorem optimizeKept_sum_le (maxTok : Nat) : ∀ (ctx : List ContextItem) (cur : Nat),
    cur ≤ maxTok → cur + sumContentTokens (optimizeKept maxTok cur ctx) ≤ maxTok
  | [], cur, h => by simpa [optimizeKept, sumContentTokens] using h
  | a :: l, cur, h => by
    simp only [optimizeKept]
    split
    · simpa [sumContentTokens] using h
    · rename_i hlt
      have ih := optimizeKept_sum_le maxTok l (cur + countTokens a.content) (by omega)
      simp only [sumContentTokens, List.map_cons, List.sum_cons] at ih ⊢
      omega

/-- A retrieved item whose content is one million and one characters long. -/
def hugeContent : String := String.mk (List.replicate 1000001 'a')

/-- Concrete oversized retrieval result used to refute the truncation claim. -/
def hugeItem : ContextItem :=
  { content := hugeContent,
    metadata := ⟨"1", "user_1_character_1", 0, "conversation", "c0"⟩,
    similarity_score := "0.100" }

/-- **C2 counterexample.** The retrieved-context block the pipeline places into
the system prompt is built by `_build_context_from_retrieval`, which never drops
an item: with a single oversized item its token count exceeds the configured
ceiling (`max_context_length = 4000`, and a fortiori the helper's default
ceiling of 1000) instead of being truncated to fit. -/
theorem c2_counterexample :
    max_context_length < countTokens (build_context_from_retrieval [hugeItem]) := by
  have h := sumContentTokens_le_build [hugeItem]
  have h1 : sumContentTokens [hugeItem] = countTokens hugeItem.content := by
    rw [sumContentTokens, List.map_cons, List.map_nil, List.sum_cons, List.sum_nil]
    omega
  have h2 : countTokens hugeItem.content = 1000001 := by
    show (String.mk (List.replicate 1000001 'a')).length = 1000001
    rw [String.length_mk, List.length_replicate]
  rw [h1, h2] at h
  show 4000 < countTokens (build_context_from_retrieval [hugeItem])
  omega

/-- **C2 (amended).** The block the pipeline actually puts into the system prompt
(`_build_context_from_retrieval`) is NOT token-bounded: its token count is at
least the total content token count of all retrieved items, so no ceiling is
enforced and no item is ever dropped. The truncation logic exists only in the
helper `_optimize_context_for_tokens`, which no pipeline invokes: for every
ranked list and every ceiling, the items that helper keeps are a prefix of the
ranked list (everything after the first overflowing item is dropped) and their
cumulative content token count never exceeds the ceiling. -/
theorem c2_truncation_only_in_unused_helper (ctx : List ContextItem)
    (maxTok : Nat) :
    sumContentTokens ctx ≤ countTokens (build_context_from_retrieval ctx) ∧
    (∃ n, optimizeKept maxTok 0 ctx = ctx.take n) ∧
    sumContentTokens (optimizeKept maxTok 0 ctx) ≤ maxTok := by
  refine ⟨sumContentTokens_le_build ctx, optimizeKept_take maxTok 0 ctx, ?_⟩
  have h := optimizeKept_sum_le maxTok ctx 0 (Nat.zero_le _)
  simpa using h

/-- **C8 counterexample.** On an empty retrieval the block is the repository's
fixed placeholder sentence, which is not the string `"no prior context"` named
by the claim. -/
theorem c8_counterexample :
    build_context_from_retrieval [] ≠ "no prior context" ∧
    build_context_from_retrieval []
      = "No relevant historical conversation records found." := by
  constructor
  · decide
  · rfl

/-- **C8 (amended).** For an empty list of retrieved items the assembler's
retrieved-context block equals the fixed non-empty placeholder
`"No relevant historical conversation records found."` — never the empty
string; the embedded assembler is a total function, so it does not raise. -/
theorem c8_empty_retrieval_placeholder :
    build_context_from_retrieval []
        = "No relevant historical conversation records found." ∧
    build_context_from_retrieval [] ≠ "" := by
  constructor
  · rfl
  · decide

/-! ## Dual-write committer (`VectorStoreService.add_chat_to_vector_store`,
vector_store.py lines 50-86) -/

/-- One `{"user": ..., "assistant": ...}` conversation pair handed to the index
upsert. -/
structure ConvPair where
  user : String
  assistant : String
deriving DecidableEq

/-- Modelled from the spec: the chunker (`RecursiveCharacterTextSplitter`,
chunk size 1000, overlap 200, vector_store.py lines 42-46) is library code not in
`src/`; per the spec it splits a document into overlapping fixed-size chunks,
modelled here as 1000-character windows advancing by 800 characters. No claim
depends on the exact chunk boundaries. -/
def splitTextChars (cs : List Char) : List (List Char) :=
  if cs.length ≤ 1000 then [cs]
  else cs.take 1000 :: splitTextChars (cs.drop 800)
termination_by cs.length
decreasing_by
  simp only [List.length_drop]
  omega

/-- String wrapper of the modelled chunker. -/
def splitText (s : String) : List String :=
  (splitTextChars s.data).map String.mk

theorem splitTextChars_ne_nil (cs : List Char) : splitTextChars cs ≠ [] := by
  rw [splitTextChars]
  split <;> simp

theorem splitText_ne_nil (s : String) : splitText s ≠ [] := by
  simp only [splitText, ne_eq, List.map_eq_nil_iff]
  exact splitTextChars_ne_nil s.data

/-- `VectorStoreService.add_chat_to_vector_store`. The index backend
(`vector_store.add_texts`) is the parameter `addTexts` and the uuid generator is
`uuid` (one fresh id per chunk). Each pair becomes the document
`f"用户: {user}\n助手: {assistant}"`, split into chunks, each tagged with
`{user_id, session_id, message_index, type="conversation", chunk_id}`. The
backend call is wrapped in `try/except` (lines 77-86): a backend failure is
logged, never raised — the function is total and only reports success as a flag. -/
def chatDocument (msg : ConvPair) : String :=
  "用户: " ++ msg.user ++ "\n助手: " ++ msg.assistant

/-- The `documents` list accumulated by the loop of vector_store.py lines 56-64. -/
def chatDocuments (conversation_context : List ConvPair) : List String :=
  conversation_context.flatMap (fun msg => splitText (chatDocument msg))

/-- The `metadatas` list accumulated in the same loop (lines 65-71), aligned with
`chatDocuments`: each chunk carries its source pair's index and a fresh uuid. -/
def chatMetadatas (uuid : Nat → String) (user_id session_id : String)
    (conversation_context : List ConvPair) : List ChunkMetadata :=
  ((conversation_context.enum.flatMap (fun p =>
    (splitText (chatDocument p.2)).map (fun _ => p.1))).enum.map (fun q =>
      ChunkMetadata.mk user_id session_id q.2 "conversation" (uuid q.1)))

def add_chat_to_vector_store
    (addTexts : List String → List ChunkMetadata → Except String Unit)
    (uuid : Nat → String) (user_id session_id : String)
    (conversation_context : List ConvPair) : Bool :=
  if (chatDocuments conversation_context).isEmpty then true
  else
    match addTexts (chatDocuments conversation_context)
        (chatMetadatas uuid user_id session_id conversation_context) with
    | Except.ok _ => true
    | Except.error _ => false

/-! ## Generation orchestrator (`RAGService`, rag_service.py) -/

/-- The value returned by `RAGService.generate_response_with_rag`
(rag_service.py lines 61-66, minus the static model-info block). -/
structure RagResponse where
  response : String
  context_used : List String
deriving DecidableEq

/-- `RAGService.generate_response_with_rag` (rag_service.py lines 17-69).
External effects are parameters: `llm` is the OpenRouter completion outcome,
`save` the authoritative `save_message` append outcome, `addTexts`/`uuid` the
index backend. A failure of `llm` or `save` escapes the enclosing `try` and is
re-raised as `RAG响应生成失败: ...`; the index upsert runs through
`add_chat_to_vector_store`, whose failures are swallowed there, so they cannot
affect the returned value. -/
def generate_response_with_rag
    (llm : Except String String) (save : Except String Unit)
    (addTexts : List String → List ChunkMetadata → Except String Unit)
    (uuid : Nat → String) (relevant_context : List ContextItem)
    (user_id session_id message : String) : Except String RagResponse :=
  match llm with
  | Except.error e => Except.error ("RAG响应生成失败: " ++ e)
  | Except.ok response =>
    match save with
    | Except.error e => Except.error ("RAG响应生成失败: " ++ e)
    | Except.ok _ =>
      let _indexed := add_chat_to_vector_store addTexts uuid user_id session_id
        [⟨message, response⟩]
      Except.ok { response := response,
                  context_used := relevant_context.map (fun c => c.content) }

/-- One event yielded to the caller by
`RAGService.generate_response_with_rag_stream` (rag_service.py lines 190-195). -/
structure StreamEvent where
  chunk : String
  session_id : String
  context_used : List String
deriving DecidableEq

/-- The streaming loop of rag_service.py lines 180-195: fragments are forwarded
one at a time in arrival order while being accumulated into `complete_response`. -/
def streamAccumulate (fragments : List String) (session_id : String)
    (context_used : List String) : List StreamEvent × String :=
  fragments.foldl
    (fun acc c => (acc.1 ++ [⟨c, session_id, context_used⟩], acc.2 ++ c))
    ([], "")

/-- Observable outcome of one happy-path run of
`RAGService.generate_response_with_rag_stream` (rag_service.py lines 139-235):
the events yielded to the caller and the exchange handed to the commit step —
the authoritative `save_message(user_id, character_id, message, complete_response)`
and the index upsert of `[{"user": message, "assistant": complete_response}]`. -/
structure StreamRun where
  events : List StreamEvent
  saved_user_text : String
  saved_assistant_text : String
  indexed_pairs : List ConvPair
deriving DecidableEq

/-- `RAGService.generate_response_with_rag_stream`, happy path, with the backend
fragment stream as the parameter `fragments`. -/
def generate_response_with_rag_stream (fragments : List String)
    (relevant_context : List ContextItem) (session_id message : String) :
    StreamRun :=
  let result := streamAccumulate fragments session_id
    (relevant_context.map (fun c => c.content))
  { events := result.1
    saved_user_text := message
    saved_assistant_text := result.2
    indexed_pairs := [⟨message, result.2⟩] }

/-! ## Claims C4 and C5 -/

/-- **C4.** With the backend fragment sequence `["Hel", "lo, ", "world"]`,
`generateStream` yields exactly those 3 fragments in that order, and the commit
step (authoritative save and index upsert) receives their concatenation
`"Hello, world"` as the assistant text. -/
theorem c4_stream_forwards_and_accumulates :
    (generate_response_with_rag_stream ["Hel", "lo, ", "world"] []
        "user_7_character_42" "hi").events.map (fun e => e.chunk)
      = ["Hel", "lo, ", "world"] ∧
    (generate_response_with_rag_stream ["Hel", "lo, ", "world"] []
        "user_7_character_42" "hi").saved_assistant_text = "Hello, world" ∧
    (generate_response_with_rag_stream ["Hel", "lo, ", "world"] []
        "user_7_character_42" "hi").indexed_pairs
      = [⟨"hi", "Hello, world"⟩] := by
  decide

/-- **C5.** For every completed generation, if the authoritative append succeeds
but the index write fails, the request still succeeds: the index failure is
swallowed inside `add_chat_to_vector_store` (reported only as a `false` flag),
no error escapes `generate_response_with_rag`, and the response built from the
generated text is returned unchanged. -/
theorem c5_index_failure_never_propagates (e : String) (uuid : Nat → String)
    (relevant_context : List ContextItem)
    (user_id session_id message response : String) :
    add_chat_to_vector_store (fun _ _ => Except.error e) uuid user_id session_id
        [⟨message, response⟩] = false ∧
    generate_response_with_rag (Except.ok response) (Except.ok ())
        (fun _ _ => Except.error e) uuid relevant_context user_id session_id message
      = Except.ok { response := response,
                    context_used := relevant_context.map (fun c => c.content) } := by
  have hne : chatDocuments [(⟨message, response⟩ : ConvPair)] ≠ [] := by
    simp only [chatDocuments, List.flatMap_cons, List.flatMap_nil, List.append_nil]
    exact splitText_ne_nil _
  have hdoc : add_chat_to_vector_store (fun _ _ => Except.error e) uuid user_id
      session_id [⟨message, response⟩] = false := by
    rw [add_chat_to_vector_store, if_neg]
    simp only [List.isEmpty_eq_true]
    exact hne
  exact ⟨hdoc, by rw [generate_response_with_rag]⟩

end Lumilove
